import Mathlib

/-!
Shallow embedding of `src/server.ts` (api-whats-tcc): a single-process relay
bridging WhatsApp protocol sessions (Baileys) to browser clients over a
socket.io transport.

The mutable module-level state of the program is collected in `ServerState`:
  * `activeSockets` — the `Map<string, any>` from `userId` to
    `{ clientId, baileysInstance }` (the session registry);
  * `userStores`    — the `Map<string, any>` from `userId` to the in-memory
    chat store created by `createUserStore`;
  * `credsDirs`     — which users currently have a durable credential
    directory `multi_auth_info_<userId>` on disk;
  * `nextInstance`  — allocator for identifiers of protocol-client
    (`makeWASocket`) instances, so that distinct instances created over time
    are distinguishable.

Each event handler of the source is translated into a pure function from the
state (plus the event's data) to the new state together with the list of
`emit` calls performed and, where relevant, a trace of the side effects in
the order the code performs them.  JS `Map` semantics are modelled by an
association list with at most one binding per key (`mapGet` / `mapSet` /
`mapDelete` / `mapHas`).
-/

namespace ApiWhats

/-- One cached chat record, exactly the shape built in the
`connection === 'open'` branch of `server.ts` (id, name, participants,
conversationTimestamp, unreadCount, messages). -/
structure Chat where
  id : String
  name : String
  participants : List String
  conversationTimestamp : Nat
  unreadCount : Nat
  messages : List String
deriving Repr, DecidableEq

/-- The in-memory store of one user (`makeInMemoryStore`), as the code uses
it: `chats.get`, `chats.insert`, `chats.all`. -/
abbrev Store := List Chat

/-- `store.chats.get(id)`: first chat with the given id. -/
def storeGet (st : Store) (id : String) : Option Chat :=
  st.find? (fun c => c.id == id)

/-- `store.chats.insert(chat)`: adds the record to the collection. -/
def storeInsert (st : Store) (c : Chat) : Store := st ++ [c]

/-- `store.chats.all()`: the whole collection. -/
def storeAll (st : Store) : List Chat := st

/-- The value stored in `activeSockets` for a user:
`{ clientId: client.id, baileysInstance }`.  The protocol instance is
identified by the `Nat` allocated when `makeWASocket` ran. -/
structure RegistryEntry where
  clientId : String
  instanceId : Nat
deriving Repr, DecidableEq

/-- `Map.get`. -/
def mapGet {α : Type} (m : List (String × α)) (k : String) : Option α :=
  (m.find? (fun p => p.1 == k)).map (fun p => p.2)

/-- `Map.set`: replaces any previous binding of the key. -/
def mapSet {α : Type} (m : List (String × α)) (k : String) (v : α) :
    List (String × α) :=
  (k, v) :: m.filter (fun p => p.1 != k)

/-- `Map.delete`. -/
def mapDelete {α : Type} (m : List (String × α)) (k : String) :
    List (String × α) :=
  m.filter (fun p => p.1 != k)

/-- `Map.has`. -/
def mapHas {α : Type} (m : List (String × α)) (k : String) : Bool :=
  (mapGet m k).isSome

/-- `DisconnectReason.loggedOut` of Baileys (status code 401). -/
def DisconnectReason.loggedOut : Nat := 401

/-- The module-level mutable state of `server.ts`. -/
structure ServerState where
  activeSockets : List (String × RegistryEntry)
  userStores : List (String × Store)
  credsDirs : List String
  nextInstance : Nat
deriving Repr, DecidableEq

/-- `getUserStore(userId)`: plain `userStores.get`, possibly `undefined`. -/
def getUserStore (s : ServerState) (userId : String) : Option Store :=
  mapGet s.userStores userId

/-- One `client.emit(event, payload)` call, tagged with the id of the
transport client it goes to. -/
inductive Emit where
  | qr (clientId code : String)
  | status (clientId payload : String)
  | error (clientId message : String)
  | groups (clientId : String) (gs : List Chat)
  | message (clientId payload : String)
deriving Repr, DecidableEq

/-- Result of processing one `connection === 'close'` update:
the new state, the emits performed, and the connection attempts issued by
`connectWhatsApp` (each recorded with the user and the freshly allocated
protocol-instance id, whose returned socket the close branch discards). -/
structure CloseResult where
  state : ServerState
  emits : List Emit
  reconnectAttempts : List (String × Nat)
deriving Repr, DecidableEq

/-- The `connection === 'close'` branch of the `connection.update` handler
(`server.ts` lines 90–114).  `userId` and `clientId` are the values captured
by the closure; `statusCode` is `(lastDisconnect?.error as Boom)?.output?.statusCode`
(`none` when absent).
  * If `activeSockets` no longer has the user, return with no action.
  * If the reason differs from `DisconnectReason.loggedOut`, call
    `connectWhatsApp(userId)` once — allocating a fresh protocol instance —
    and discard its result; `activeSockets` is not touched.
  * Otherwise (logged out), only when the credential directory exists:
    remove it, delete the registry entry and emit `status 'disconnected'`.
-/
def processClose (s : ServerState) (userId clientId : String)
    (statusCode : Option Nat) : CloseResult :=
  if !(mapHas s.activeSockets userId) then
    ⟨s, [], []⟩
  else if statusCode ≠ some DisconnectReason.loggedOut then
    ⟨{ s with nextInstance := s.nextInstance + 1 }, [], [(userId, s.nextInstance)]⟩
  else if s.credsDirs.contains userId then
    ⟨{ s with
        credsDirs := s.credsDirs.filter (fun v => v != userId),
        activeSockets := mapDelete s.activeSockets userId },
      [Emit.status clientId "disconnected"], []⟩
  else
    ⟨s, [], []⟩

/-- One group as returned by `socket.groupFetchAllParticipating()`. -/
structure GroupMetadata where
  id : String
  subject : String
  participants : List String
  creation : Nat
deriving Repr, DecidableEq

/-- The mapping from a fetched group to the stored `Chat` record
(`server.ts` lines 122–129). -/
def groupToChat (g : GroupMetadata) : Chat :=
  { id := g.id
    name := g.subject
    participants := g.participants
    conversationTimestamp := g.creation
    unreadCount := 0
    messages := [] }

/-- Side effects of the `connection === 'open'` branch, in the order the
code performs them. -/
inductive OpenAction where
  | emitConnected (clientId : String)
  | storeCreated (userId : String)
  | storeFetched (userId : String)
  | chatInserted (userId chatId : String)
deriving Repr, DecidableEq

/-- `createUserStore(userId)` (`server.ts` lines 32–50): returns the
existing store when present, otherwise creates a fresh one and registers it
in `userStores`.  (Hydration from the snapshot file and the periodic flush
timer do not affect the registry or emits and are not modelled.) -/
def createUserStore (s : ServerState) (userId : String) :
    Store × ServerState × OpenAction :=
  match getUserStore s userId with
  | some st => (st, s, OpenAction.storeFetched userId)
  | none =>
      (([] : Store),
       { s with userStores := mapSet s.userStores userId ([] : Store) },
       OpenAction.storeCreated userId)

/-- The `chats.forEach` loop of the open branch: insert each chat only if no
record with its id is present, recording each actual insertion. -/
def syncChats (userId : String) : Store → List Chat → Store × List OpenAction
  | st, [] => (st, [])
  | st, c :: rest =>
      if (storeGet st c.id).isSome then
        syncChats userId st rest
      else
        let r := syncChats userId (storeInsert st c) rest
        (r.1, OpenAction.chatInserted userId c.id :: r.2)

/-- The `connection === 'open'` branch (`server.ts` lines 116–138), as the
code orders its effects: FIRST `client.emit('status', 'connected')`, THEN
`createUserStore`, THEN the group fetch and the insert-if-absent loop.
Returns the new state and the ordered trace of actions. -/
def processOpen (s : ServerState) (userId clientId : String)
    (groups : List GroupMetadata) : ServerState × List OpenAction :=
  let cs := createUserStore s userId
  let sync := syncChats userId cs.1 (groups.map groupToChat)
  ({ cs.2.1 with userStores := mapSet cs.2.1.userStores userId sync.1 },
   OpenAction.emitConnected clientId :: cs.2.2 :: sync.2)

/-- All actions that come strictly after the first
`client.emit('status', 'connected')` in a trace. -/
def actionsAfterFirstConnected : List OpenAction → List OpenAction
  | [] => []
  | OpenAction.emitConnected _ :: rest => rest
  | _ :: rest => actionsAfterFirstConnected rest

/-- The per-transport-connection closure state of the `io.on('connection')`
handler: the socket.io client id, the `let baileysInstance` variable
(`undefined` until the first successful `connectWhatsApp`), and one entry
per `'disconnect'`/`'listGroups'` handler pair registered by a run of the
`'auth'` handler (each such pair closes over the `userId` of that run, kept
here in registration order). -/
structure ClientConn where
  clientId : String
  baileysInstance : Option Nat
  authedUserIds : List String
deriving Repr, DecidableEq

/-- Result of one run of the `'auth'` handler.  `crashed` records that an
exception escaped the (async) handler — an unhandled promise rejection. -/
structure AuthResult where
  state : ServerState
  conn : ClientConn
  emits : List Emit
  crashed : Bool
deriving Repr, DecidableEq

/-- The part of the `'auth'` handler before the `await connectWhatsApp`
suspension point (`server.ts` lines 153–166): the missing-`userId` check
(JS falsiness: absent or empty string) and the `activeSockets` existing-
connection check.  Returns the rejection emit, or `none` when the handler
proceeds to connect. -/
def authGuard (s : ServerState) (clientId : String) (userId? : Option String) :
    Option Emit :=
  match userId? with
  | none => some (Emit.error clientId "UserId não fornecido.")
  | some u =>
      if u = "" then some (Emit.error clientId "UserId não fornecido.")
      else if mapHas s.activeSockets u then
        some (Emit.status clientId "already_connected")
      else none

/-- The part of the `'auth'` handler after `connectWhatsApp` resolves
(`server.ts` lines 170–171): the fresh protocol instance is allocated and
`activeSockets.set(userId, { clientId: client.id, baileysInstance })` runs,
replacing any binding written in the meantime. -/
def authComplete (s : ServerState) (clientId userId : String) : ServerState :=
  { s with
    activeSockets := mapSet s.activeSockets userId ⟨clientId, s.nextInstance⟩,
    nextInstance := s.nextInstance + 1 }

/-- One full, non-interleaved run of the `'auth'` handler
(`server.ts` lines 152–218).  `connectOk` says whether the awaited
`connectWhatsApp(userId)` resolves or rejects.
  * A guard rejection returns immediately with the rejection emit.
  * On success, `authComplete` registers the entry, `baileysInstance` is set
    to the new instance, and the handler then registers the
    `messages.upsert`, `'disconnect'` and `'listGroups'` listeners
    (recorded by appending `userId` to `authedUserIds`).
  * On failure, the catch emits `'error'`; execution then falls through to
    line 178 `baileysInstance.ev.on(...)`: if `baileysInstance` is still
    `undefined` this throws a TypeError that escapes the handler
    (`crashed := true`) and no listeners are registered; if a previous auth
    on this connection had set it, the listeners are registered on that old
    instance and the handler finishes normally. -/
def authHandler (s : ServerState) (conn : ClientConn) (userId? : Option String)
    (connectOk : Bool) : AuthResult :=
  match authGuard s conn.clientId userId? with
  | some e => ⟨s, conn, [e], false⟩
  | none =>
      let userId := userId?.getD ""
      if connectOk then
        ⟨authComplete s conn.clientId userId,
         { conn with
            baileysInstance := some s.nextInstance,
            authedUserIds := conn.authedUserIds ++ [userId] },
         [], false⟩
      else
        match conn.baileysInstance with
        | none =>
            ⟨s, conn, [Emit.error conn.clientId "Erro ao conectar ao WhatsApp."], true⟩
        | some _ =>
            ⟨s,
             { conn with authedUserIds := conn.authedUserIds ++ [userId] },
             [Emit.error conn.clientId "Erro ao conectar ao WhatsApp."], false⟩

/-- The body of one registered `'listGroups'` handler
(`server.ts` lines 202–216), closing over `userId`.  When no store exists,
`getUserStore(userId).chats` throws a TypeError that the `catch` only logs
to the server console: nothing at all is emitted to the client.  Otherwise
the chats whose id ends in `"@g.us"` are emitted as one `'groups'` event. -/
def listGroupsOnce (s : ServerState) (clientId userId : String) : List Emit :=
  match getUserStore s userId with
  | none => []
  | some st =>
      [Emit.groups clientId
        ((storeAll st).filter (fun ch => ch.id.endsWith "@g.us"))]

/-- One inbound `'listGroups'` event runs every registered handler, in
registration order. -/
def listGroupsEvent (s : ServerState) (clientId : String) :
    List String → List Emit
  | [] => []
  | u :: rest => listGroupsOnce s clientId u ++ listGroupsEvent s clientId rest

/-- The body of one registered `'disconnect'` handler
(`server.ts` lines 183–199), closing over `userId`; `inst` is the current
value of the connection's `baileysInstance` variable.  Returns the new
state, the users actually torn down, and the protocol instances closed via
`removeAllListeners` + `ws.close` — all gated on the stored `clientId`
matching the disconnecting client. -/
def disconnectHandlerOnce (s : ServerState) (clientId : String)
    (inst : Option Nat) (userId : String) :
    ServerState × List String × List Nat :=
  match mapGet s.activeSockets userId with
  | some e =>
      if e.clientId = clientId then
        ({ s with activeSockets := mapDelete s.activeSockets userId },
         [userId],
         match inst with | some i => [i] | none => [])
      else (s, [], [])
  | none => (s, [], [])

/-- Result of processing one transport `'disconnect'` event:
`teardownRuns` counts how many registered handler bodies executed. -/
structure DisconnectResult where
  state : ServerState
  teardownRuns : Nat
  teardowns : List String
  closedInstances : List Nat
deriving Repr, DecidableEq

/-- Run every registered `'disconnect'` handler in registration order,
threading the state. -/
def runDisconnectHandlers (clientId : String) (inst : Option Nat) :
    ServerState → List String → DisconnectResult
  | s, [] => ⟨s, 0, [], []⟩
  | s, u :: rest =>
      let step := disconnectHandlerOnce s clientId inst u
      let r := runDisconnectHandlers clientId inst step.1 rest
      ⟨r.state, r.teardownRuns + 1, step.2.1 ++ r.teardowns,
       step.2.2 ++ r.closedInstances⟩

/-- One inbound transport `'disconnect'` event for a connection. -/
def disconnectEvent (s : ServerState) (conn : ClientConn) : DisconnectResult :=
  runDisconnectHandlers conn.clientId conn.baileysInstance s conn.authedUserIds

/-! ### Helper lemmas -/

/-- On a non-logout close with the user still registered, the close branch
issues exactly one `connectWhatsApp` call (allocating instance
`s.nextInstance`), emits nothing and leaves `activeSockets` untouched. -/
theorem processClose_reconnect_eq (s : ServerState) (u c : String)
    (code : Option Nat) (hact : mapHas s.activeSockets u = true)
    (hcode : code ≠ some DisconnectReason.loggedOut) :
    processClose s u c code =
      ⟨{ s with nextInstance := s.nextInstance + 1 }, [], [(u, s.nextInstance)]⟩ := by
  unfold processClose
  rw [hact]
  simp [hcode]

/-- A `listGroups` handler whose user has no store emits nothing. -/
theorem listGroupsOnce_none {s : ServerState} {c u : String}
    (h : getUserStore s u = none) : listGroupsOnce s c u = [] := by
  unfold listGroupsOnce
  rw [h]

/-- A `listGroups` handler whose user has a store emits exactly one
`groups` event. -/
theorem listGroupsOnce_some {s : ServerState} {c u : String} {st : Store}
    (h : getUserStore s u = some st) :
    listGroupsOnce s c u =
      [Emit.groups c ((storeAll st).filter (fun ch => ch.id.endsWith "@g.us"))] := by
  unfold listGroupsOnce
  rw [h]

/-- When every registered user has a store, one `listGroups` event produces
one `groups` emission per registered handler. -/
theorem listGroupsEvent_length (s : ServerState) (c : String) :
    ∀ us : List String,
      (∀ v ∈ us, (getUserStore s v).isSome = true) →
      (listGroupsEvent s c us).length = us.length := by
  intro us
  induction us with
  | nil => intro _; rfl
  | cons u rest ih =>
      intro h
      have hu : (getUserStore s u).isSome = true := h u (by simp)
      obtain ⟨st, hst⟩ := Option.isSome_iff_exists.mp hu
      have hrest := ih (fun v hv => h v (by simp [hv]))
      simp [listGroupsEvent, listGroupsOnce_some hst, hrest]

/-- One transport `'disconnect'` event executes every registered handler
body exactly once. -/
theorem runDisconnectHandlers_count (c : String) (inst : Option Nat) :
    ∀ (us : List String) (s : ServerState),
      (runDisconnectHandlers c inst s us).teardownRuns = us.length := by
  intro us
  induction us with
  | nil => intro s; rfl
  | cons u rest ih =>
      intro s
      simp [runDisconnectHandlers, ih]

/-! ### Claim theorems -/

/-- C1: the claim says that of several `authenticate(u)` requests processed
concurrently, exactly one creates the registry entry and every other
receives `already_connected`.  The code's check-then-act is split by the
`await connectWhatsApp` suspension: starting from an empty registry, the
guards of two pending requests for `"u1"` (clients `cA`, `cB`) BOTH pass
(`none` — neither is told `already_connected`), `cA`'s completion registers
its entry, and `cB`'s completion then silently overwrites it — both
requests succeed, violating the claim. -/
theorem C1_race :
    authGuard ⟨[], [], [], 0⟩ "cA" (some "u1") = none ∧
    authGuard ⟨[], [], [], 0⟩ "cB" (some "u1") = none ∧
    mapGet (authComplete ⟨[], [], [], 0⟩ "cA" "u1").activeSockets "u1"
      = some ⟨"cA", 0⟩ ∧
    (authComplete (authComplete ⟨[], [], [], 0⟩ "cA" "u1") "cB" "u1").activeSockets
      = [("u1", ⟨"cB", 1⟩)] := by decide

/-- C2 counterexample: the claim says the reconnect replaces the
RegistryEntry in place with the newly created protocol instance.  With
entry `("u1", ⟨"c1", 0⟩)` and a non-logout close (code 428), the retry
allocates instance 1 but the entry still holds instance 0 — the registry
never points at the new instance. -/
theorem C2_counterexample :
    (processClose ⟨[("u1", ⟨"c1", 0⟩)], [], ["u1"], 1⟩ "u1" "c1" (some 428)).reconnectAttempts
      = [("u1", 1)] ∧
    mapGet (processClose ⟨[("u1", ⟨"c1", 0⟩)], [], ["u1"], 1⟩ "u1" "c1"
        (some 428)).state.activeSockets "u1" = some ⟨"c1", 0⟩ ∧
    ¬ ((mapGet (processClose ⟨[("u1", ⟨"c1", 0⟩)], [], ["u1"], 1⟩ "u1" "c1"
        (some 428)).state.activeSockets "u1").map RegistryEntry.instanceId
      = some 1) := by decide

/-- C2 (amended): after a non-logout close for a registered user, a new
protocol instance is allocated for the retry, but the RegistryEntry is left
entirely unchanged — it keeps the previous SessionHandle, which is never
the newly created instance. -/
theorem C2_entryNotReplaced (s : ServerState) (u c : String)
    (code : Option Nat) (e : RegistryEntry)
    (he : mapGet s.activeSockets u = some e)
    (hcode : code ≠ some DisconnectReason.loggedOut)
    (hinst : e.instanceId < s.nextInstance) :
    mapGet (processClose s u c code).state.activeSockets u = some e ∧
    (processClose s u c code).reconnectAttempts = [(u, s.nextInstance)] ∧
    e.instanceId ≠ s.nextInstance := by
  have hact : mapHas s.activeSockets u = true := by
    unfold mapHas; rw [he]; rfl
  rw [processClose_reconnect_eq s u c code hact hcode]
  exact ⟨he, rfl, Nat.ne_of_lt hinst⟩

/-- C2 witness: concrete instance of `C2_entryNotReplaced`. -/
theorem C2_witness :
    mapGet ((⟨[("u1", ⟨"c1", 0⟩)], [], ["u1"], 1⟩ : ServerState)).activeSockets "u1"
      = some ⟨"c1", 0⟩ ∧
    mapGet (processClose ⟨[("u1", ⟨"c1", 0⟩)], [], ["u1"], 1⟩ "u1" "c1"
        (some 408)).state.activeSockets "u1" = some ⟨"c1", 0⟩ ∧
    (processClose ⟨[("u1", ⟨"c1", 0⟩)], [], ["u1"], 1⟩ "u1" "c1"
        (some 408)).reconnectAttempts = [("u1", 1)] := by
  have h := C2_entryNotReplaced ⟨[("u1", ⟨"c1", 0⟩)], [], ["u1"], 1⟩ "u1" "c1"
    (some 408) ⟨"c1", 0⟩ (by decide) (by decide) (by decide)
  exact ⟨by decide, h.1, h.2.1⟩

/-- C3: the claim says every connection-establishment error during
`authenticate` is caught and surfaced solely as an `error` notification,
with no exception escaping the handler.  On the first `auth` of a fresh
transport connection, with `connectWhatsApp` rejecting: the catch does emit
the `error` and no entry is created, but execution then reaches
`baileysInstance.ev.on(...)` with `baileysInstance` still `undefined`,
throwing a TypeError that escapes the async handler (`crashed = true`). -/
theorem C3_crash :
    (authHandler ⟨[], [], [], 0⟩ ⟨"c1", none, []⟩ (some "u1") false).emits
      = [Emit.error "c1" "Erro ao conectar ao WhatsApp."] ∧
    (authHandler ⟨[], [], [], 0⟩ ⟨"c1", none, []⟩ (some "u1") false).state
      = ⟨[], [], [], 0⟩ ∧
    (authHandler ⟨[], [], [], 0⟩ ⟨"c1", none, []⟩ (some "u1") false).crashed
      = true := by decide

/-- C4 counterexample: the claim says the logout branch unconditionally
deletes credentials, removes the entry and emits `disconnected`.  With a
live entry for `"u1"` but no credential directory on disk
(`credsDirs = []`), the `fs.existsSync` guard makes the branch do nothing:
the entry survives and no `disconnected` status is emitted. -/
theorem C4_counterexample :
    mapHas ((⟨[("u1", ⟨"c1", 0⟩)], [], [], 1⟩ : ServerState)).activeSockets "u1"
      = true ∧
    ¬ (mapHas (processClose ⟨[("u1", ⟨"c1", 0⟩)], [], [], 1⟩ "u1" "c1"
          (some DisconnectReason.loggedOut)).state.activeSockets "u1" = false ∧
       Emit.status "c1" "disconnected" ∈
         (processClose ⟨[("u1", ⟨"c1", 0⟩)], [], [], 1⟩ "u1" "c1"
           (some DisconnectReason.loggedOut)).emits) := by decide

/-- C4 (amended): for a registered user, a logout-reason close deletes the
credential directory, removes the RegistryEntry and emits `disconnected`
exactly once — but only when the credential directory exists on disk; when
it does not, nothing happens at all (entry retained, nothing emitted). -/
theorem C4_logoutConditional (s : ServerState) (u c : String)
    (hact : mapHas s.activeSockets u = true) :
    (s.credsDirs.contains u = true →
      processClose s u c (some DisconnectReason.loggedOut) =
        ⟨{ s with
            credsDirs := s.credsDirs.filter (fun v => v != u),
            activeSockets := mapDelete s.activeSockets u },
          [Emit.status c "disconnected"], []⟩) ∧
    (s.credsDirs.contains u = false →
      processClose s u c (some DisconnectReason.loggedOut) = ⟨s, [], []⟩) := by
  constructor <;> intro hc <;> simp at hc <;> unfold processClose <;>
    rw [hact] <;> simp [hc]

/-- C4 witness: concrete instance of `C4_logoutConditional` with the
credential directory present. -/
theorem C4_witness :
    mapHas ((⟨[("u1", ⟨"c1", 0⟩)], [], ["u1"], 1⟩ : ServerState)).activeSockets "u1"
      = true ∧
    processClose ⟨[("u1", ⟨"c1", 0⟩)], [], ["u1"], 1⟩ "u1" "c1"
        (some DisconnectReason.loggedOut)
      = ⟨⟨[], [], [], 1⟩, [Emit.status "c1" "disconnected"], []⟩ := by
  refine ⟨by decide, ?_⟩
  have h := (C4_logoutConditional ⟨[("u1", ⟨"c1", 0⟩)], [], ["u1"], 1⟩ "u1" "c1"
    (by decide)).1 (by decide)
  exact h.trans (by decide)

/-- C5: a non-logout close while the RegistryEntry still exists issues
exactly one new connection attempt for the user, emits nothing, and leaves
the registry (in fact everything except the instance allocator) unchanged. -/
theorem C5_reconnectKeepsEntry (s : ServerState) (u c : String)
    (code : Option Nat) (hact : mapHas s.activeSockets u = true)
    (hcode : code ≠ some DisconnectReason.loggedOut) :
    (processClose s u c code).reconnectAttempts.length = 1 ∧
    (processClose s u c code).state.activeSockets = s.activeSockets ∧
    (processClose s u c code).emits = [] := by
  rw [processClose_reconnect_eq s u c code hact hcode]
  exact ⟨rfl, rfl, rfl⟩

/-- C5 witness: concrete instance of `C5_reconnectKeepsEntry`. -/
theorem C5_witness :
    mapHas ((⟨[("u1", ⟨"c1", 0⟩)], [], ["u1"], 1⟩ : ServerState)).activeSockets "u1"
      = true ∧
    (processClose ⟨[("u1", ⟨"c1", 0⟩)], [], ["u1"], 1⟩ "u1" "c1"
        (some 428)).reconnectAttempts.length = 1 ∧
    (processClose ⟨[("u1", ⟨"c1", 0⟩)], [], ["u1"], 1⟩ "u1" "c1"
        (some 428)).state.activeSockets
      = ((⟨[("u1", ⟨"c1", 0⟩)], [], ["u1"], 1⟩ : ServerState)).activeSockets ∧
    (processClose ⟨[("u1", ⟨"c1", 0⟩)], [], ["u1"], 1⟩ "u1" "c1"
        (some 428)).emits = [] := by
  have h := C5_reconnectKeepsEntry ⟨[("u1", ⟨"c1", 0⟩)], [], ["u1"], 1⟩ "u1" "c1"
    (some 428) (by decide) (by decide)
  exact ⟨by decide, h.1, h.2.1, h.2.2⟩

/-- C6: once the RegistryEntry for a user has been removed, a later close
event for that user returns before doing anything: no reconnection attempt,
no emission, no state change — an unowned session is never resurrected. -/
theorem C6_noResurrection (s : ServerState) (u c : String) (code : Option Nat)
    (h : mapHas s.activeSockets u = false) :
    processClose s u c code = ⟨s, [], []⟩ := by
  unfold processClose
  rw [h]
  rfl

/-- C6 witness: concrete instance of `C6_noResurrection` (registry holds a
different user only). -/
theorem C6_witness :
    mapHas ((⟨[("u2", ⟨"c2", 0⟩)], [], ["u1"], 1⟩ : ServerState)).activeSockets "u1"
      = false ∧
    processClose ⟨[("u2", ⟨"c2", 0⟩)], [], ["u1"], 1⟩ "u1" "c1" (some 428)
      = ⟨⟨[("u2", ⟨"c2", 0⟩)], [], ["u1"], 1⟩, [], []⟩ :=
  ⟨by decide,
   C6_noResurrection ⟨[("u2", ⟨"c2", 0⟩)], [], ["u1"], 1⟩ "u1" "c1" (some 428)
     (by decide)⟩

/-- C7: a registered `'disconnect'` teardown body removes the user's entry
and closes the protocol connection only when the stored `clientId` is the
disconnecting client's; when another client has re-authenticated as the
user in the meantime (stored owner differs), the teardown changes nothing:
same state, no teardown, no instance closed. -/
theorem C7_staleTeardownGuard (s : ServerState) (c u : String)
    (inst : Option Nat) (e : RegistryEntry)
    (he : mapGet s.activeSockets u = some e) :
    (e.clientId ≠ c → disconnectHandlerOnce s c inst u = (s, [], [])) ∧
    (e.clientId = c →
      (disconnectHandlerOnce s c inst u).1.activeSockets
        = mapDelete s.activeSockets u ∧
      (disconnectHandlerOnce s c inst u).2.1 = [u]) := by
  constructor
  · intro hne
    unfold disconnectHandlerOnce
    rw [he]
    simp [hne]
  · intro heq
    unfold disconnectHandlerOnce
    rw [he]
    simp [heq]

/-- C7 witness: client `cB` re-authenticated as `"u1"`, so `cA`'s delayed
teardown leaves everything untouched. -/
theorem C7_witness :
    mapGet ((⟨[("u1", ⟨"cB", 3⟩)], [], [], 4⟩ : ServerState)).activeSockets "u1"
      = some ⟨"cB", 3⟩ ∧
    disconnectHandlerOnce ⟨[("u1", ⟨"cB", 3⟩)], [], [], 4⟩ "cA" (some 0) "u1"
      = (⟨[("u1", ⟨"cB", 3⟩)], [], [], 4⟩, [], []) :=
  ⟨by decide,
   (C7_staleTeardownGuard ⟨[("u1", ⟨"cB", 3⟩)], [], [], 4⟩ "cA" "u1" (some 0)
      ⟨"cB", 3⟩ (by decide)).1 (by decide)⟩

/-- C8 counterexample: the claim says every group is upserted into the
store before the `connected` status is delivered.  Processing an open event
for `"u1"` with two fetched groups, the insertion of group `"1@g.us"`
occurs strictly after the (first and only) `connected` emission in the
branch's action trace. -/
theorem C8_counterexample :
    OpenAction.chatInserted "u1" "1@g.us" ∈
      actionsAfterFirstConnected
        (processOpen ⟨[("u1", ⟨"c1", 0⟩)], [], ["u1"], 1⟩ "u1" "c1"
          [⟨"1@g.us", "g1", [], 5⟩, ⟨"2@g.us", "g2", [], 6⟩]).2 := by decide

/-- C8 (amended): in the open branch the `connected` status is emitted
FIRST — before the store is materialized and before any group is upserted —
so a client that issues `listGroups` upon receiving `connected` is not
guaranteed to observe the synced groups. -/
theorem C8_connectedEmittedFirst (s : ServerState) (u c : String)
    (gs : List GroupMetadata) :
    (processOpen s u c gs).2.head? = some (OpenAction.emitConnected c) := rfl

/-- C9 counterexample: the claim says a `listGroups` from a client whose
user has no store gets an error status notification back.  With no store
for `"u1"`, the handler emits nothing at all — in particular no `error`
event. -/
theorem C9_counterexample :
    ¬ ∃ m : String,
        Emit.error "c1" m ∈
          listGroupsOnce ⟨[("u1", ⟨"c1", 0⟩)], [], [], 1⟩ "c1" "u1" := by
  intro h
  obtain ⟨m, hm⟩ := h
  have hempty :
      listGroupsOnce (⟨[("u1", ⟨"c1", 0⟩)], [], [], 1⟩ : ServerState) "c1" "u1"
        = [] := by decide
  rw [hempty] at hm
  exact List.not_mem_nil _ hm

/-- C9 (amended): when the UserStoreHandle is absent, the TypeError thrown
by `getUserStore(userId).chats` is caught and only logged server-side; the
handler emits nothing to the transport client — the absence is not a hard
failure, but it is silence, not an error notification. -/
theorem C9_absentStoreSilence (s : ServerState) (c u : String)
    (h : getUserStore s u = none) : listGroupsOnce s c u = [] :=
  listGroupsOnce_none h

/-- C9 witness: concrete instance of `C9_absentStoreSilence`. -/
theorem C9_witness :
    getUserStore (⟨[("u1", ⟨"c1", 0⟩)], [], [], 1⟩ : ServerState) "u1" = none ∧
    listGroupsOnce ⟨[("u1", ⟨"c1", 0⟩)], [], [], 1⟩ "c1" "u1" = [] :=
  ⟨by decide,
   C9_absentStoreSilence ⟨[("u1", ⟨"c1", 0⟩)], [], [], 1⟩ "c1" "u1" (by decide)⟩

/-- C10 counterexample: the claim says every `auth` event that passes the
missing-userId and already-connected rejections registers an additional
`disconnect` and `listGroups` handler (so N auths make one `listGroups`
emit `groups` N times).  A first `auth` whose connection attempt fails
passes both rejections (guard = `none`) yet registers no handler at all
(the handler crashes on the undefined instance first), and a following
`listGroups` emits nothing — 0 times, not 1. -/
theorem C10_counterexample :
    authGuard ⟨[], [], [], 0⟩ "c1" (some "u1") = none ∧
    (authHandler ⟨[], [], [], 0⟩ ⟨"c1", none, []⟩ (some "u1") false).conn.authedUserIds
      = [] ∧
    (authHandler ⟨[], [], [], 0⟩ ⟨"c1", none, []⟩ (some "u1") false).crashed
      = true ∧
    listGroupsEvent
        (authHandler ⟨[], [], [], 0⟩ ⟨"c1", none, []⟩ (some "u1") false).state "c1"
        (authHandler ⟨[], [], [], 0⟩ ⟨"c1", none, []⟩ (some "u1") false).conn.authedUserIds
      = [] := by decide

/-- C10 (amended): every `auth` event that passes both rejections and
reaches past the protocol-listener attachment (its connection attempt
succeeded, or a previous auth on the same transport connection had already
set the instance) registers one more `disconnect`/`listGroups` handler
pair; a single `listGroups` event then emits one `groups` event per
registered handler whose user store exists (N after N such auths), and a
single transport disconnect runs the teardown body once per registered
handler (N times). -/
theorem C10_handlerAccumulation (s s2 : ServerState) (conn : ClientConn)
    (u : String) (hguard : authGuard s conn.clientId (some u) = none)
    (hstores : ∀ v ∈ conn.authedUserIds, (getUserStore s2 v).isSome = true) :
    (authHandler s conn (some u) true).conn.authedUserIds
      = conn.authedUserIds ++ [u] ∧
    (∀ i : Nat, conn.baileysInstance = some i →
      (authHandler s conn (some u) false).conn.authedUserIds
        = conn.authedUserIds ++ [u]) ∧
    (listGroupsEvent s2 conn.clientId conn.authedUserIds).length
      = conn.authedUserIds.length ∧
    (disconnectEvent s2 conn).teardownRuns = conn.authedUserIds.length := by
  refine ⟨?_, ?_, listGroupsEvent_length s2 conn.clientId conn.authedUserIds hstores,
    runDisconnectHandlers_count conn.clientId conn.baileysInstance
      conn.authedUserIds s2⟩
  · unfold authHandler
    rw [hguard]
    rfl
  · intro i hi
    unfold authHandler
    rw [hguard]
    simp [hi]

/-- C10 witness: concrete instance of `C10_handlerAccumulation` with one
previously registered handler for `"u1"` (whose store exists) and a new
successful auth for `"u2"`. -/
theorem C10_witness :
    authGuard (⟨[], [], [], 5⟩ : ServerState) "c1" (some "u2") = none ∧
    (authHandler ⟨[], [], [], 5⟩ ⟨"c1", some 0, ["u1"]⟩ (some "u2") true).conn.authedUserIds
      = ["u1", "u2"] ∧
    (listGroupsEvent ⟨[], [("u1", [])], [], 5⟩ "c1" ["u1"]).length = 1 ∧
    (disconnectEvent ⟨[], [("u1", [])], [], 5⟩ ⟨"c1", some 0, ["u1"]⟩).teardownRuns
      = 1 := by
  have h := C10_handlerAccumulation ⟨[], [], [], 5⟩ ⟨[], [("u1", [])], [], 5⟩
    ⟨"c1", some 0, ["u1"]⟩ "u2" (by decide) (by decide)
  exact ⟨by decide, h.1, h.2.2.1, h.2.2.2⟩

end ApiWhats
